import Mathlib

/-!
Shallow embedding of the live-output core of OvenMediaEngine:
`projects/modules/rtmp/rtmp_writer.cpp` (the container remux writer) and the
MpegtsPushStream lifecycle code.  External library calls (FFmpeg allocation,
transport open, header write, interleaved write, bitstream converters, the
base publisher Stream class) are not part of the repository sources; their
outcomes are passed in as explicit parameters or modelled from the spec, as
noted on each definition.
-/

/-- cmn::MediaType, the subset relevant to the writer plus catch-all values. -/
inductive MediaType where
  | Video
  | Audio
  | Data
  | Unknown
deriving DecidableEq, Repr

/-- cmn::MediaCodecId, the codecs mentioned by rtmp_writer.cpp. -/
inductive MediaCodecId where
  | H264
  | H265
  | Vp8
  | Vp9
  | Aac
  | Mp3
  | Opus
  | OtherCodec
deriving DecidableEq, Repr

/-- FFmpeg AVCodecID values appearing in RtmpWriter::AddTrack. -/
inductive AVCodecID where
  | H264
  | H265
  | VP8
  | VP9
  | AAC
  | MP3
  | OPUS
  | NONE
deriving DecidableEq, Repr

/-- cmn::BitstreamFormat, the cases distinguished by RtmpWriter::PutData. -/
inductive BitstreamFormat where
  | H264_AVCC
  | H264_ANNEXB
  | AAC_RAW
  | AAC_ADTS
  | OtherFormat
deriving DecidableEq, Repr

/-- MediaPacketFlag: only the keyframe marker is inspected by the writer. -/
inductive MediaPacketFlag where
  | Key
  | NoFlag
deriving DecidableEq, Repr

/-- AVRational / cmn::Timebase: a rational with integer numerator and denominator. -/
structure AVRational where
  num : Int
  den : Int
deriving DecidableEq, Repr

/-- RtmpTrackInfo: per-track metadata registered with the writer. -/
structure RtmpTrackInfo where
  codec_id : MediaCodecId
  bitrate : Int
  timebase : AVRational
  width : Int
  height : Int
  sample_rate : Int
  channels : Nat
  extradata : Option (List UInt8)
deriving DecidableEq, Repr

/-- The fields of AVCodecParameters written by RtmpWriter::AddTrack. -/
structure AVCodecParameters where
  codec_type : MediaType
  codec_id : AVCodecID
  bit_rate : Int
  width : Int
  height : Int
  channels : Nat
  sample_rate : Int
  frame_size : Int
  extradata : Option (List UInt8)
deriving DecidableEq, Repr

/-- The fields of an FFmpeg AVStream used by the writer. -/
structure AVStreamM where
  index : Nat
  time_base : AVRational
  codecpar : AVCodecParameters
deriving DecidableEq, Repr

/-- The fields of an FFmpeg AVFormatContext used by the writer.  `oformat_nofile`
models the AVFMT_NOFILE flag of the output format; `pb_open` models whether an
AVIO handle has been opened into `pb`.  Entries of `streams` are optional so
that a null stream pointer (checked at rtmp_writer.cpp:292) is representable. -/
structure AVFormatContextM where
  url : String
  oformat_name : String
  oformat_nofile : Bool
  pb_open : Bool
  streams : List (Option AVStreamM)
deriving DecidableEq, Repr

/-- The state of an RtmpWriter: target path, optional container context (null
before SetPath / after Stop), and the two track maps. -/
structure RtmpWriter where
  _path : String
  _format_context : Option AVFormatContextM
  _track_map : List (Int × Nat)
  _trackinfo_map : List (Int × RtmpTrackInfo)
deriving DecidableEq, Repr

/-- Lookup in an association list, mirroring std::map::find. -/
def mapFind {α : Type} (m : List (Int × α)) (k : Int) : Option α :=
  match m with
  | [] => none
  | (k', v) :: rest => if k' = k then some v else mapFind rest k

/-- Insert-or-overwrite in an association list, mirroring std::map::operator[] assignment. -/
def mapInsert {α : Type} (m : List (Int × α)) (k : Int) (v : α) : List (Int × α) :=
  match m with
  | [] => [(k, v)]
  | (k', v') :: rest => if k' = k then (k, v) :: rest else (k', v') :: mapInsert rest k v

/-- RtmpWriter::SetPath (rtmp_writer.cpp:67-99).  An empty path is rejected with
no state change.  Otherwise `_path` is assigned, any existing context is closed
and freed, and `avformat_alloc_output_context2` is invoked; that library call is
not part of the repository, so its outcome is the parameter `alloc_result`
(`none` models an allocation error, in which case the library leaves the output
context pointer null).  The `format` argument is only forwarded to the
allocator, so it does not otherwise affect the model. -/
def RtmpWriter.SetPath (w : RtmpWriter) (path : String) (format : Option String)
    (alloc_result : Option AVFormatContextM) : Bool × RtmpWriter :=
  if path = "" then
    (false, w)
  else
    let w1 : RtmpWriter := { w with _path := path, _format_context := none }
    let _ := format
    match alloc_result with
    | none => (false, w1)
    | some ctx => (true, { w1 with _format_context := some ctx })

/-- RtmpWriter::GetPath (rtmp_writer.cpp:101-104). -/
def RtmpWriter.GetPath (w : RtmpWriter) : String :=
  w._path

/-- RtmpWriter::Start (rtmp_writer.cpp:106-154).  Line 115 reads
`_format_context->url` with no null guard, so a missing context is undefined
behaviour, modelled as result `none`.  The external transport open
(`avio_open2`) and header write (`avformat_write_header`) are not repository
code; their outcomes are the parameters `avio_ok` and `header_ok`.  `avio_open2`
is only attempted when the output format lacks AVFMT_NOFILE, and on success it
opens `pb`.  Neither failure path releases or clears the context. -/
def RtmpWriter.Start (w : RtmpWriter) (avio_ok header_ok : Bool) :
    Option (Bool × RtmpWriter) :=
  match w._format_context with
  | none => none
  | some ctx =>
    if ctx.oformat_nofile = false then
      if avio_ok = false then
        some (false, w)
      else
        let ctx1 := { ctx with pb_open := true }
        if header_ok = false then
          some (false, { w with _format_context := some ctx1 })
        else
          some (true, { w with _format_context := some ctx1 })
    else
      if header_ok = false then
        some (false, w)
      else
        some (true, w)

/-- RtmpWriter::Stop (rtmp_writer.cpp:156-173).  Unconditionally releases the
context when present (closing the AVIO handle first when open) and always
returns true; with no context it is a successful no-op. -/
def RtmpWriter.Stop (w : RtmpWriter) : Bool × RtmpWriter :=
  match w._format_context with
  | none => (true, w)
  | some _ => (true, { w with _format_context := none })

/-- The video codec-id mapping of RtmpWriter::AddTrack (rtmp_writer.cpp:192-196). -/
def avcodecIdOfVideo (c : MediaCodecId) : AVCodecID :=
  if c = MediaCodecId.H264 then AVCodecID.H264
  else if c = MediaCodecId.H265 then AVCodecID.H265
  else if c = MediaCodecId.Vp8 then AVCodecID.VP8
  else if c = MediaCodecId.Vp9 then AVCodecID.VP9
  else AVCodecID.NONE

/-- The audio codec-id mapping of RtmpWriter::AddTrack (rtmp_writer.cpp:230-233). -/
def avcodecIdOfAudio (c : MediaCodecId) : AVCodecID :=
  if c = MediaCodecId.Aac then AVCodecID.AAC
  else if c = MediaCodecId.Mp3 then AVCodecID.MP3
  else if c = MediaCodecId.Opus then AVCodecID.OPUS
  else AVCodecID.NONE

/-- RtmpWriter::AddTrack (rtmp_writer.cpp:175-267).  For Video and Audio a new
container stream slot is appended (`avformat_new_stream`; the external call is
modelled as succeeding — its null-return would be dereferenced unguarded), its
codec parameters and timebase are filled from the descriptor, and both track
maps are updated.  `avformat_new_stream` dereferences the context, so a null
context in those branches is undefined behaviour, modelled as `none`.  Any
other media type returns false having touched nothing. -/
def RtmpWriter.AddTrack (w : RtmpWriter) (media_type : MediaType) (track_id : Int)
    (track_info : RtmpTrackInfo) : Option (Bool × RtmpWriter) :=
  match media_type with
  | MediaType.Video =>
    match w._format_context with
    | none => none
    | some ctx =>
      let idx := ctx.streams.length
      let stream : AVStreamM :=
        { index := idx
          time_base := track_info.timebase
          codecpar :=
            { codec_type := MediaType.Video
              codec_id := avcodecIdOfVideo track_info.codec_id
              bit_rate := track_info.bitrate
              width := track_info.width
              height := track_info.height
              channels := 0
              sample_rate := 0
              frame_size := 0
              extradata := track_info.extradata } }
      let ctx1 := { ctx with streams := ctx.streams ++ [some stream] }
      some (true,
        { w with
            _format_context := some ctx1
            _track_map := mapInsert w._track_map track_id idx
            _trackinfo_map := mapInsert w._trackinfo_map track_id track_info })
  | MediaType.Audio =>
    match w._format_context with
    | none => none
    | some ctx =>
      let idx := ctx.streams.length
      let stream : AVStreamM :=
        { index := idx
          time_base := track_info.timebase
          codecpar :=
            { codec_type := MediaType.Audio
              codec_id := avcodecIdOfAudio track_info.codec_id
              bit_rate := track_info.bitrate
              width := 0
              height := 0
              channels := track_info.channels
              sample_rate := track_info.sample_rate
              frame_size := 1024
              extradata := track_info.extradata } }
      let ctx1 := { ctx with streams := ctx.streams ++ [some stream] }
      some (true,
        { w with
            _format_context := some ctx1
            _track_map := mapInsert w._track_map track_id idx
            _trackinfo_map := mapInsert w._trackinfo_map track_id track_info })
  | _ => some (false, w)

/-- Modelled from the spec: FFmpeg's `av_rescale_rnd` with the default rounding
of `av_rescale_q` (round to nearest, ties away from zero — the "single,
deterministic rounding rule" of spec §4.4 step 2), computing a*b/c.  Both b and
c are positive for timebase rescaling. -/
def av_rescale_rnd (a b c : Int) : Int :=
  if a < 0 then
    -(Int.ofNat (((-a).toNat * b.toNat + c.toNat / 2) / c.toNat))
  else
    Int.ofNat ((a.toNat * b.toNat + c.toNat / 2) / c.toNat)

/-- Modelled from the spec: FFmpeg's `av_rescale_q`, rescaling `a` from
timebase `bq` to timebase `cq` as a * (bq.num*cq.den) / (cq.num*bq.den). -/
def av_rescale_q (a : Int) (bq cq : AVRational) : Int :=
  av_rescale_rnd a (bq.num * cq.den) (cq.num * bq.den)

/-- The fields of the AVPacket assembled by RtmpWriter::PutData.  `data = none`
models a null data pointer (the zero initialisation of `AVPacket av_packet = {0}`). -/
structure AVPacketM where
  stream_index : Nat
  flags_key : Bool
  pts : Int
  dts : Int
  data : Option (List UInt8)
  size : Nat
deriving DecidableEq, Repr

/-- The bitstream-shaping switch of RtmpWriter::PutData (rtmp_writer.cpp:312-389),
selected by the container format name.  The external converters are not
repository code; their results for this payload are the parameters
`annexb_to_xvcc` (NalStreamConverter::ConvertAnnexbToXvcc) and `adts_to_raw`
(AacConverter::ConvertAdtsToRaw), with `none` modelling a conversion failure.
Result: `none` when PutData returns false at this step; `some payload` when the
switch completes, `payload = none` meaning the packet's data/size fields were
never assigned and keep their zero initialisation — which is what happens when
the container name matches none of "flv", "mp4", "mpegts", since the if/else
chain has no final else. -/
def shapePayload (oformat_name : String) (format : BitstreamFormat)
    (data : List UInt8) (annexb_to_xvcc adts_to_raw : Option (List UInt8)) :
    Option (Option (List UInt8)) :=
  if oformat_name = "flv" then
    match format with
    | BitstreamFormat.H264_AVCC => some (some data)
    | BitstreamFormat.H264_ANNEXB =>
      match annexb_to_xvcc with
      | none => none
      | some d => some (some d)
    | BitstreamFormat.AAC_RAW => some (some data)
    | BitstreamFormat.AAC_ADTS =>
      match adts_to_raw with
      | none => none
      | some d => some (some d)
    | _ => none
  else if oformat_name = "mp4" then
    match format with
    | BitstreamFormat.AAC_RAW => some (some data)
    | BitstreamFormat.AAC_ADTS =>
      match adts_to_raw with
      | none => none
      | some d => some (some d)
    | BitstreamFormat.H264_ANNEXB => some (some data)
    | BitstreamFormat.H264_AVCC => some (some data)
    | _ => none
  else if oformat_name = "mpegts" then
    some (some data)
  else
    some none

/-- RtmpWriter::PutData (rtmp_writer.cpp:273-402).  Returns `none` on the one
path whose C++ is undefined behaviour: a track id present in `_track_map` but
absent from `_trackinfo_map`, where `operator[]` inserts a null shared pointer
that line 306 immediately dereferences (states built through AddTrack never
reach it).  Otherwise `some (result, written, writer)` where `written` is the
packet handed to `av_interleaved_write_frame` (`none` when no write was
attempted) and the writer state is returned unchanged — PutData mutates
nothing.  The external interleaved write is not repository code; its outcome is
the parameter `write_ok`. -/
def RtmpWriter.PutData (w : RtmpWriter) (track_id : Int) (pts dts : Int)
    (flag : MediaPacketFlag) (format : BitstreamFormat) (data : List UInt8)
    (annexb_to_xvcc adts_to_raw : Option (List UInt8)) (write_ok : Bool) :
    Option (Bool × Option AVPacketM × RtmpWriter) :=
  match w._format_context with
  | none => some (false, none, w)
  | some ctx =>
    match mapFind w._track_map track_id with
    | none => some (true, none, w)
    | some stream_index =>
      match ctx.streams.getD stream_index none with
      | none => some (false, none, w)
      | some stream =>
        match mapFind w._trackinfo_map track_id with
        | none => none
        | some track_info =>
          let pkt0 : AVPacketM :=
            { stream_index := stream_index
              flags_key := match flag with
                           | MediaPacketFlag.Key => true
                           | _ => false
              pts := av_rescale_q pts track_info.timebase stream.time_base
              dts := av_rescale_q dts track_info.timebase stream.time_base
              data := none
              size := 0 }
          match shapePayload ctx.oformat_name format data annexb_to_xvcc adts_to_raw with
          | none => some (false, none, w)
          | some payload =>
            let pkt : AVPacketM :=
              { pkt0 with
                  data := payload
                  size := match payload with
                          | none => 0
                          | some d => d.length }
            if write_ok = false then
              some (false, some pkt, w)
            else
              some (true, some pkt, w)

/-- pub::Stream::State, the lifecycle states of a publisher stream (spec §3). -/
inductive StreamState where
  | CREATED
  | STARTED
  | STOPPED
deriving DecidableEq, Repr

/-- The state of a push stream: lifecycle state, attached session ids, and the
size of the provisioned worker pool. -/
structure PushStream where
  state : StreamState
  sessions : List Nat
  worker_count : Nat
deriving DecidableEq, Repr

/-- Modelled from the spec: the base class pub::Stream::Start is not under
src/; per the state machine of §4.1 it moves the stream to STARTED and
reports success. -/
def Stream.baseStart (s : PushStream) : Bool × PushStream :=
  (true, { s with state := StreamState.STARTED })

/-- Modelled from the spec: the base class pub::Stream::Stop is not under
src/; per §4.1 it moves the stream to STOPPED, tearing down the sessions'
association with the stream, and reports success. -/
def Stream.baseStop (s : PushStream) : Bool × PushStream :=
  (true, { s with state := StreamState.STOPPED, sessions := [] })

/-- Modelled from the spec: CreateStreamWorker is not under src/; per §6 it
provisions a fixed-size worker pool and may fail.  The provisioning outcome is
the parameter `ok`; on failure nothing is provisioned. -/
def CreateStreamWorker (ok : Bool) (n : Nat) (s : PushStream) : Bool × PushStream :=
  if ok then (true, { s with worker_count := n }) else (false, s)

/-- MpegtsPushStream::Start (mpegtspush_stream.cpp, src/unnamed/part_000:29-44):
rejects any state other than CREATED before touching anything, then provisions
two stream workers, then delegates to the base Stream::Start. -/
def MpegtsPushStream.Start (worker_ok : Bool) (s : PushStream) : Bool × PushStream :=
  if s.state ≠ StreamState.CREATED then
    (false, s)
  else
    let r := CreateStreamWorker worker_ok 2 s
    if r.1 = false then
      (false, r.2)
    else
      Stream.baseStart r.2

/-- MpegtsPushStream::Stop (src/unnamed/part_000:46-56): rejects any state
other than STARTED, then delegates to the base Stream::Stop. -/
def MpegtsPushStream.Stop (s : PushStream) : Bool × PushStream :=
  if s.state ≠ StreamState.STARTED then
    (false, s)
  else
    Stream.baseStop s

/-! Concrete fixtures used by witness and counterexample theorems. -/

/-- A 1/1000 (millisecond) timebase. -/
def tbMilli : AVRational := { num := 1, den := 1000 }

/-- A 1/90000 (MPEG 90 kHz) timebase. -/
def tb90k : AVRational := { num := 1, den := 90000 }

/-- A concrete H.264 video track descriptor with millisecond timebase. -/
def tiVideo : RtmpTrackInfo :=
  { codec_id := MediaCodecId.H264
    bitrate := 1000000
    timebase := tbMilli
    width := 640
    height := 360
    sample_rate := 0
    channels := 0
    extradata := some [1, 2, 3, 4] }

/-- A freshly allocated output context for the given container format name. -/
def mkCtx (oname : String) : AVFormatContextM :=
  { url := "rtmp://example/app/stream"
    oformat_name := oname
    oformat_nofile := false
    pb_open := false
    streams := [] }

/-- A writer configured for the given container format with no tracks yet. -/
def mkWriter (oname : String) : RtmpWriter :=
  { _path := "rtmp://example/app/stream"
    _format_context := some (mkCtx oname)
    _track_map := []
    _trackinfo_map := [] }

/-- The writer for format `oname` after registering video track 1. -/
def mkWriter1 (oname : String) : RtmpWriter :=
  (((mkWriter oname).AddTrack MediaType.Video 1 tiVideo).getD (false, mkWriter oname)).2

/-- The flv writer with one registered video track. -/
def wFlv : RtmpWriter := mkWriter1 "flv"

/-- A writer whose container format ("webm") is none of flv, mp4, mpegts, with
one registered video track. -/
def wWebm : RtmpWriter := mkWriter1 "webm"

/-- A writer with no container context configured. -/
def wNull : RtmpWriter :=
  { _path := ""
    _format_context := none
    _track_map := []
    _trackinfo_map := [] }

/-! Helper lemmas shared by the claim theorems. -/

/-- Dividing n*90000 + 500 by 1000 is exactly 90*n: the 1/1000 to 1/90000
rescale is an exact integer scaling with no rounding contribution. -/
lemma nat_rescale_milli_90k (n : Nat) : (n * 90000 + 500) / 1000 = 90 * n := by
  have h : n * 90000 + 500 = 1000 * (90 * n) + 500 := by ring
  rw [h, Nat.mul_add_div (by norm_num)]
  norm_num

/-- av_rescale_rnd from 1/1000 to 1/90000 (b = 90000, c = 1000) multiplies by
exactly 90, on negative inputs as well. -/
lemma av_rescale_rnd_milli_90k (p : Int) : av_rescale_rnd p 90000 1000 = 90 * p := by
  unfold av_rescale_rnd
  have e9 : (90000 : Int).toNat = 90000 := rfl
  have e1 : (1000 : Int).toNat = 1000 := rfl
  rw [e9, e1]
  have e5 : (1000 : Nat) / 2 = 500 := rfl
  by_cases h : p < 0
  · rw [if_pos h, e5, nat_rescale_milli_90k]
    simp only [Int.ofNat_eq_coe]
    omega
  · rw [if_neg h, e5, nat_rescale_milli_90k]
    simp only [Int.ofNat_eq_coe]
    omega

/-- Rescaling any value from timebase 1/1000 to timebase 1/90000 multiplies it
by exactly 90. -/
lemma av_rescale_q_milli_90k (p : Int) : av_rescale_q p tbMilli tb90k = 90 * p := by
  show av_rescale_rnd p 90000 1000 = 90 * p
  exact av_rescale_rnd_milli_90k p

/-- Whenever PutData assembles a packet for the interleaved writer, the
packet's pts and dts are produced by the single rescale function av_rescale_q,
applied identically to both, from the registered track's timebase to the
container slot's timebase. -/
lemma PutData_timestamps (w : RtmpWriter) (tid pts dts : Int) (flag : MediaPacketFlag)
    (fmt : BitstreamFormat) (data : List UInt8) (cv1 cv2 : Option (List UInt8)) (wr r : Bool)
    (pkt : AVPacketM) (w' : RtmpWriter)
    (h : w.PutData tid pts dts flag fmt data cv1 cv2 wr = some (r, some pkt, w')) :
    ∃ ctx idx stream ti,
      w._format_context = some ctx ∧
      mapFind w._track_map tid = some idx ∧
      ctx.streams.getD idx none = some stream ∧
      mapFind w._trackinfo_map tid = some ti ∧
      pkt.pts = av_rescale_q pts ti.timebase stream.time_base ∧
      pkt.dts = av_rescale_q dts ti.timebase stream.time_base := by
  unfold RtmpWriter.PutData at h
  obtain hctx | ⟨ctx, hctx⟩ := Option.eq_none_or_eq_some w._format_context
  · simp only [hctx] at h
    simp at h
  obtain hidx | ⟨idx, hidx⟩ := Option.eq_none_or_eq_some (mapFind w._track_map tid)
  · simp only [hctx, hidx] at h
    simp at h
  obtain hstream | ⟨stream, hstream⟩ := Option.eq_none_or_eq_some (ctx.streams.getD idx none)
  · simp only [hctx, hidx, hstream] at h
    simp at h
  obtain hti | ⟨ti, hti⟩ := Option.eq_none_or_eq_some (mapFind w._trackinfo_map tid)
  · simp only [hctx, hidx, hstream, hti] at h
    simp at h
  simp only [hctx, hidx, hstream, hti] at h
  obtain hsh | ⟨payload, hsh⟩ :=
    Option.eq_none_or_eq_some (shapePayload ctx.oformat_name fmt data cv1 cv2)
  · simp only [hsh] at h
    simp at h
  simp only [hsh] at h
  refine ⟨ctx, idx, stream, ti, hctx, hidx, hstream, hti, ?_, ?_⟩ <;>
  · by_cases hwr : wr = false
    · rw [if_pos hwr] at h
      simp only [Option.some.injEq, Prod.mk.injEq] at h
      obtain ⟨-, hpkt, -⟩ := h
      rw [← hpkt]
    · rw [if_neg hwr] at h
      simp only [Option.some.injEq, Prod.mk.injEq] at h
      obtain ⟨-, hpkt, -⟩ := h
      rw [← hpkt]

/-! Claim theorems. -/

/-- C1: evaluation at the failing input — on a Writer whose container format
name is "webm" (none of the flv / mp4 / mpegts branches), PutData for the
registered track does not reject the packet: the if/else chain falls through
without touching the packet, `av_interleaved_write_frame` is invoked with a
data-less zero-size packet, and PutData returns true when that write succeeds,
contradicting the spec's "any other container: unsupported — reject packet". -/
theorem C1_unknown_container_still_writes :
    wWebm.PutData 1 500 500 MediaPacketFlag.Key BitstreamFormat.H264_AVCC [1, 2, 3] none none true =
      some (true,
        some { stream_index := 0, flags_key := true, pts := 500, dts := 500,
               data := none, size := 0 },
        wWebm) := by
  rfl

/-- C2: counterexample — a SetPath call that fails at context allocation does
not leave the Writer in its prior valid state: the stored target path is
updated to the failed call's path, so the resulting Writer differs from the
original. -/
theorem C2_alloc_failure_mutates :
    ((mkWriter "flv").SetPath "rtmp://new" none none).1 = false ∧
    ((mkWriter "flv").SetPath "rtmp://new" none none).2._path = "rtmp://new" ∧
    ((mkWriter "flv").SetPath "rtmp://new" none none).2 ≠ mkWriter "flv" := by
  refine ⟨rfl, rfl, ?_⟩
  decide

/-- C2 (amended): a SetPath call that fails because the path is empty leaves
the Writer unchanged; a call on a non-empty path that fails at context
allocation returns false and leaves no half-initialized context reachable (the
container context is null afterward) and the track maps untouched, but it does
not restore the prior state: the stored target path is the failed call's path
and the previously configured context has been released. -/
theorem C2_setpath_failure_state (w : RtmpWriter) (path : String) (format : Option String)
    (h : path ≠ "") :
    w.SetPath "" format none = (false, w) ∧
    (w.SetPath path format none).1 = false ∧
    (w.SetPath path format none).2._format_context = none ∧
    (w.SetPath path format none).2._path = path ∧
    (w.SetPath path format none).2._track_map = w._track_map ∧
    (w.SetPath path format none).2._trackinfo_map = w._trackinfo_map := by
  unfold RtmpWriter.SetPath
  simp [h]

/-- C2 (amended) witness at a concrete writer, path and failing allocation. -/
theorem C2_setpath_failure_state_witness :
    (mkWriter "flv").SetPath "" none none = (false, mkWriter "flv") ∧
    ((mkWriter "flv").SetPath "rtmp://new" none none).1 = false ∧
    ((mkWriter "flv").SetPath "rtmp://new" none none).2._format_context = none ∧
    ((mkWriter "flv").SetPath "rtmp://new" none none).2._path = "rtmp://new" ∧
    ((mkWriter "flv").SetPath "rtmp://new" none none).2._track_map = (mkWriter "flv")._track_map ∧
    ((mkWriter "flv").SetPath "rtmp://new" none none).2._trackinfo_map = (mkWriter "flv")._trackinfo_map :=
  C2_setpath_failure_state (mkWriter "flv") "rtmp://new" none (by decide)

/-- C3: counterexample — Start on the configured flv Writer fails at transport
open, yet the very next PutData on the registered track performs the
interleaved write and returns true instead of reporting failure. -/
theorem C3_putdata_accepted_after_failed_start :
    wFlv.Start false true = some (false, wFlv) ∧
    wFlv.PutData 1 500 500 MediaPacketFlag.Key BitstreamFormat.H264_AVCC [1, 2, 3] none none true =
      some (true,
        some { stream_index := 0, flags_key := true, pts := 500, dts := 500,
               data := some [1, 2, 3], size := 3 },
        wFlv) := by
  exact ⟨rfl, rfl⟩

/-- C3 (amended): a failed Start does not disable the Writer: whenever Start
returns at all, the resulting Writer still holds a container context and its
path and track maps are unchanged, so subsequent PutData calls are not
rejected by the Writer itself — refusing to feed data after a failed Start is
the caller's responsibility (it must check Start's return value). -/
theorem C3_failed_start_keeps_writer_alive (w : RtmpWriter) (avio_ok header_ok r : Bool)
    (w' : RtmpWriter) (h : w.Start avio_ok header_ok = some (r, w')) :
    w'._format_context.isSome ∧
    w'._track_map = w._track_map ∧
    w'._trackinfo_map = w._trackinfo_map ∧
    w'._path = w._path := by
  unfold RtmpWriter.Start at h
  obtain hctx | ⟨ctx, hctx⟩ := Option.eq_none_or_eq_some w._format_context
  · simp only [hctx] at h
    simp at h
  simp only [hctx] at h
  by_cases hnf : ctx.oformat_nofile = false
  · rw [if_pos hnf] at h
    by_cases havio : avio_ok = false
    · rw [if_pos havio] at h
      simp only [Option.some.injEq, Prod.mk.injEq] at h
      obtain ⟨-, hw⟩ := h
      subst hw
      exact ⟨by rw [hctx]; rfl, rfl, rfl, rfl⟩
    · rw [if_neg havio] at h
      by_cases hhdr : header_ok = false
      · rw [if_pos hhdr] at h
        simp only [Option.some.injEq, Prod.mk.injEq] at h
        obtain ⟨-, hw⟩ := h
        subst hw
        exact ⟨rfl, rfl, rfl, rfl⟩
      · rw [if_neg hhdr] at h
        simp only [Option.some.injEq, Prod.mk.injEq] at h
        obtain ⟨-, hw⟩ := h
        subst hw
        exact ⟨rfl, rfl, rfl, rfl⟩
  · rw [if_neg hnf] at h
    by_cases hhdr : header_ok = false
    · rw [if_pos hhdr] at h
      simp only [Option.some.injEq, Prod.mk.injEq] at h
      obtain ⟨-, hw⟩ := h
      subst hw
      exact ⟨by rw [hctx]; rfl, rfl, rfl, rfl⟩
    · rw [if_neg hhdr] at h
      simp only [Option.some.injEq, Prod.mk.injEq] at h
      obtain ⟨-, hw⟩ := h
      subst hw
      exact ⟨by rw [hctx]; rfl, rfl, rfl, rfl⟩

/-- C3 (amended) witness: the flv Writer after a transport-open failure. -/
theorem C3_failed_start_keeps_writer_alive_witness :
    wFlv._format_context.isSome ∧
    wFlv._track_map = wFlv._track_map ∧
    wFlv._trackinfo_map = wFlv._trackinfo_map ∧
    wFlv._path = wFlv._path :=
  C3_failed_start_keeps_writer_alive wFlv false true false wFlv (by rfl)

/-- C4: PutData on a configured Writer with a track id absent from the track
map returns true, attempts no multiplexer write, and leaves the Writer
unchanged. -/
theorem C4_unregistered_track_silently_dropped (w : RtmpWriter) (ctx : AVFormatContextM)
    (tid pts dts : Int) (flag : MediaPacketFlag) (fmt : BitstreamFormat)
    (data : List UInt8) (cv1 cv2 : Option (List UInt8)) (wr : Bool)
    (hctx : w._format_context = some ctx)
    (htid : mapFind w._track_map tid = none) :
    w.PutData tid pts dts flag fmt data cv1 cv2 wr = some (true, none, w) := by
  unfold RtmpWriter.PutData
  simp only [hctx, htid]

/-- C4 witness: a configured flv Writer with an unregistered track id 99. -/
theorem C4_unregistered_track_silently_dropped_witness :
    (mkWriter "flv").PutData 99 0 0 MediaPacketFlag.Key BitstreamFormat.H264_AVCC [1] none none true =
      some (true, none, mkWriter "flv") :=
  C4_unregistered_track_silently_dropped (mkWriter "flv") (mkCtx "flv") 99 0 0
    MediaPacketFlag.Key BitstreamFormat.H264_AVCC [1] none none true rfl rfl

/-- C5: rescaling from the 1/1000 track timebase to the 1/90000 container
timebase is exact (pts 500 rescales to 45000) and strictly order-preserving,
and PutData applies the single deterministic rounding rule identically to pts
and dts: whenever it assembles a packet, that packet's pts and dts are
av_rescale_q of the input pts and dts over the same pair of timebases — the
registered track's timebase and the container slot's timebase. -/
theorem C5_rescale_exact_and_order_preserving (p1 p2 : Int) (h : p1 < p2) :
    av_rescale_q 500 tbMilli tb90k = 45000 ∧
    av_rescale_q p1 tbMilli tb90k < av_rescale_q p2 tbMilli tb90k ∧
    (∀ w tid pts dts flag fmt data cv1 cv2 wr r pkt w',
      RtmpWriter.PutData w tid pts dts flag fmt data cv1 cv2 wr = some (r, some pkt, w') →
      ∃ ctx idx stream ti,
        w._format_context = some ctx ∧
        mapFind w._track_map tid = some idx ∧
        ctx.streams.getD idx none = some stream ∧
        mapFind w._trackinfo_map tid = some ti ∧
        pkt.pts = av_rescale_q pts ti.timebase stream.time_base ∧
        pkt.dts = av_rescale_q dts ti.timebase stream.time_base) := by
  refine ⟨rfl, ?_, ?_⟩
  · rw [av_rescale_q_milli_90k, av_rescale_q_milli_90k]
    omega
  · intro w tid pts dts flag fmt data cv1 cv2 wr r pkt w' hput
    exact PutData_timestamps w tid pts dts flag fmt data cv1 cv2 wr r pkt w' hput

/-- C5 witness: order preservation at the concrete pair 0 < 1. -/
theorem C5_rescale_exact_and_order_preserving_witness :
    av_rescale_q 0 tbMilli tb90k < av_rescale_q 1 tbMilli tb90k :=
  (C5_rescale_exact_and_order_preserving 0 1 (by decide)).2.1

/-- C6: lifecycle gating of MpegtsPushStream — Start succeeds only from
CREATED and Stop only from STARTED; called in any other state, each returns
false and leaves the stream, its session set and its worker pool unchanged. -/
theorem C6_lifecycle_gating (s t : PushStream) (worker_ok : Bool)
    (hs : s.state ≠ StreamState.CREATED) (ht : t.state ≠ StreamState.STARTED) :
    MpegtsPushStream.Start worker_ok s = (false, s) ∧
    MpegtsPushStream.Stop t = (false, t) ∧
    (∀ u ok, (MpegtsPushStream.Start ok u).1 = true → u.state = StreamState.CREATED) ∧
    (∀ u, (MpegtsPushStream.Stop u).1 = true → u.state = StreamState.STARTED) := by
  refine ⟨?_, ?_, ?_, ?_⟩
  · unfold MpegtsPushStream.Start
    rw [if_pos hs]
  · unfold MpegtsPushStream.Stop
    rw [if_pos ht]
  · intro u ok hu
    by_contra hne
    unfold MpegtsPushStream.Start at hu
    rw [if_pos hne] at hu
    simp at hu
  · intro u hu
    by_contra hne
    unfold MpegtsPushStream.Stop at hu
    rw [if_pos hne] at hu
    simp at hu

/-- C6 witness: a STARTED stream rejects Start, a CREATED stream rejects Stop. -/
theorem C6_lifecycle_gating_witness :
    MpegtsPushStream.Start true { state := StreamState.STARTED, sessions := [5], worker_count := 2 } =
      (false, { state := StreamState.STARTED, sessions := [5], worker_count := 2 }) ∧
    MpegtsPushStream.Stop { state := StreamState.CREATED, sessions := [], worker_count := 0 } =
      (false, { state := StreamState.CREATED, sessions := [], worker_count := 0 }) ∧
    (∀ u ok, (MpegtsPushStream.Start ok u).1 = true → u.state = StreamState.CREATED) ∧
    (∀ u, (MpegtsPushStream.Stop u).1 = true → u.state = StreamState.STARTED) :=
  C6_lifecycle_gating
    { state := StreamState.STARTED, sessions := [5], worker_count := 2 }
    { state := StreamState.CREATED, sessions := [], worker_count := 0 }
    true (by decide) (by decide)

/-- On an flv target, AVCC video is passed through by the shaping switch. -/
lemma shapePayload_flv_avcc (data : List UInt8) (cv1 cv2 : Option (List UInt8)) :
    shapePayload "flv" BitstreamFormat.H264_AVCC data cv1 cv2 = some (some data) := rfl

/-- On an flv target, an annex-b conversion failure aborts the shaping switch. -/
lemma shapePayload_flv_annexb_fail (data : List UInt8) (cv2 : Option (List UInt8)) :
    shapePayload "flv" BitstreamFormat.H264_ANNEXB data none cv2 = none := rfl

/-- C7: on an FLV-style target, already length-delimited (H264_AVCC) video is
passed through without conversion — whatever the external converters would
return, the payload handed to the interleaved writer is byte-for-byte the
input payload and the Writer is unchanged; the call's result is exactly the
interleaved write's result. -/
theorem C7_flv_avcc_passthrough (w : RtmpWriter) (ctx : AVFormatContextM)
    (stream : AVStreamM) (ti : RtmpTrackInfo) (idx : Nat) (tid pts dts : Int)
    (flag : MediaPacketFlag) (data : List UInt8) (cv1 cv2 : Option (List UInt8)) (wr : Bool)
    (hctx : w._format_context = some ctx)
    (hname : ctx.oformat_name = "flv")
    (hidx : mapFind w._track_map tid = some idx)
    (hstream : ctx.streams.getD idx none = some stream)
    (hti : mapFind w._trackinfo_map tid = some ti) :
    ∃ pkt, w.PutData tid pts dts flag BitstreamFormat.H264_AVCC data cv1 cv2 wr =
        some (wr, some pkt, w) ∧
      pkt.data = some data ∧ pkt.size = data.length := by
  unfold RtmpWriter.PutData
  simp only [hctx, hidx, hstream, hti, hname, shapePayload_flv_avcc]
  cases wr
  · exact ⟨_, rfl, rfl, rfl⟩
  · exact ⟨_, rfl, rfl, rfl⟩

/-- C7 witness: the flv Writer forwards the AVCC payload [9, 8, 7] unchanged. -/
theorem C7_flv_avcc_passthrough_witness :
    ∃ pkt, wFlv.PutData 1 0 0 MediaPacketFlag.Key BitstreamFormat.H264_AVCC [9, 8, 7]
        (some [0]) (some [0]) true = some (true, some pkt, wFlv) ∧
      pkt.data = some [9, 8, 7] ∧ pkt.size = [9, 8, 7].length :=
  C7_flv_avcc_passthrough wFlv _ _ _ 0 1 0 0 MediaPacketFlag.Key [9, 8, 7]
    (some [0]) (some [0]) true rfl rfl rfl rfl rfl

/-- C8: transient per-packet errors are isolated — on an FLV-style target with
a registered track, a bitstream-converter failure (start-code-delimited video
whose converter yields nothing) makes PutData return false with no write
attempted, and an interleaved-write failure makes PutData return false after
the write was attempted; in both cases the Writer (container context and track
maps included) is returned unchanged, so a subsequent PutData proceeds from
the same state. -/
theorem C8_transient_errors_isolated (w : RtmpWriter) (ctx : AVFormatContextM)
    (stream : AVStreamM) (ti : RtmpTrackInfo) (idx : Nat) (tid pts dts : Int)
    (flag : MediaPacketFlag) (data : List UInt8) (cv1 cv2 : Option (List UInt8)) (wr : Bool)
    (hctx : w._format_context = some ctx)
    (hname : ctx.oformat_name = "flv")
    (hidx : mapFind w._track_map tid = some idx)
    (hstream : ctx.streams.getD idx none = some stream)
    (hti : mapFind w._trackinfo_map tid = some ti) :
    w.PutData tid pts dts flag BitstreamFormat.H264_ANNEXB data none cv2 wr =
      some (false, none, w) ∧
    (∃ pkt, w.PutData tid pts dts flag BitstreamFormat.H264_AVCC data cv1 cv2 false =
      some (false, some pkt, w)) := by
  constructor
  · unfold RtmpWriter.PutData
    simp only [hctx, hidx, hstream, hti, hname, shapePayload_flv_annexb_fail]
  · unfold RtmpWriter.PutData
    simp only [hctx, hidx, hstream, hti, hname, shapePayload_flv_avcc]
    exact ⟨_, rfl⟩

/-- C8 witness: converter failure and write failure on the concrete flv Writer. -/
theorem C8_transient_errors_isolated_witness :
    wFlv.PutData 1 0 0 MediaPacketFlag.Key BitstreamFormat.H264_ANNEXB [9, 8] none none true =
      some (false, none, wFlv) ∧
    (∃ pkt, wFlv.PutData 1 0 0 MediaPacketFlag.Key BitstreamFormat.H264_AVCC [9, 8] none none false =
      some (false, some pkt, wFlv)) :=
  C8_transient_errors_isolated wFlv _ _ _ 0 1 0 0 MediaPacketFlag.Key [9, 8]
    none none true rfl rfl rfl rfl rfl

/-- C9: AddTrack with a media type that is neither Video nor Audio returns
false and mutates nothing: the Writer is returned unchanged, so a track id
absent from both maps beforehand is still absent afterward and the container's
stream-slot list is untouched. -/
theorem C9_addtrack_unsupported_media_type (w : RtmpWriter) (mt : MediaType) (tid : Int)
    (ti : RtmpTrackInfo)
    (h1 : mt ≠ MediaType.Video) (h2 : mt ≠ MediaType.Audio)
    (h3 : mapFind w._track_map tid = none) (h4 : mapFind w._trackinfo_map tid = none) :
    w.AddTrack mt tid ti = some (false, w) ∧
    (∀ r w', w.AddTrack mt tid ti = some (r, w') →
      mapFind w'._track_map tid = none ∧ mapFind w'._trackinfo_map tid = none ∧
      w'._format_context = w._format_context) := by
  have hmt : w.AddTrack mt tid ti = some (false, w) := by
    cases mt with
    | Video => exact absurd rfl h1
    | Audio => exact absurd rfl h2
    | Data => rfl
    | Unknown => rfl
  refine ⟨hmt, ?_⟩
  intro r w' h
  rw [hmt] at h
  simp only [Option.some.injEq, Prod.mk.injEq] at h
  obtain ⟨-, hw⟩ := h
  subst hw
  exact ⟨h3, h4, rfl⟩

/-- C9 witness: media type Data on the configured flv Writer, fresh track id 7. -/
theorem C9_addtrack_unsupported_media_type_witness :
    (mkWriter "flv").AddTrack MediaType.Data 7 tiVideo = (some (false, mkWriter "flv")) ∧
    (∀ r w', (mkWriter "flv").AddTrack MediaType.Data 7 tiVideo = some (r, w') →
      mapFind w'._track_map 7 = none ∧ mapFind w'._trackinfo_map 7 = none ∧
      w'._format_context = (mkWriter "flv")._format_context) :=
  C9_addtrack_unsupported_media_type (mkWriter "flv") MediaType.Data 7 tiVideo
    (by decide) (by decide) rfl rfl

/-- C10: Start requires a configured container context as an unchecked
precondition — with no context its unconditional dereference of the context's
url and output-format flags is undefined behaviour (modelled as `none`),
whereas PutData and Stop guard the very same state: PutData rejects the packet
with false and no write, and Stop is a successful no-op. -/
theorem C10_start_dereferences_context_unguarded (w : RtmpWriter) (avio_ok header_ok : Bool)
    (h : w._format_context = none) :
    w.Start avio_ok header_ok = none ∧
    (∀ tid pts dts flag fmt data cv1 cv2 wr,
      w.PutData tid pts dts flag fmt data cv1 cv2 wr = some (false, none, w)) ∧
    w.Stop = (true, w) := by
  refine ⟨?_, ?_, ?_⟩
  · unfold RtmpWriter.Start
    simp only [h]
  · intro tid pts dts flag fmt data cv1 cv2 wr
    unfold RtmpWriter.PutData
    simp only [h]
  · unfold RtmpWriter.Stop
    simp only [h]

/-- C10 witness: the unconfigured Writer. -/
theorem C10_start_dereferences_context_unguarded_witness :
    wNull.Start true true = none ∧
    (∀ tid pts dts flag fmt data cv1 cv2 wr,
      wNull.PutData tid pts dts flag fmt data cv1 cv2 wr = some (false, none, wNull)) ∧
    wNull.Stop = (true, wNull) :=
  C10_start_dereferences_context_unguarded wNull true true rfl
